import Mathlib

/-!
Shallow embedding of the event/attendance visit-ingestion and reporting core of
the UIRS backend (`src/services/ml.py`, `src/services/event.py`,
`src/services/report.py`, `src/api/v1/ml.py`, `src/api/v1/report.py`,
`src/api/dependencies/ml.py`), together with theorems settling the frozen
claims about it.

Modelling conventions:
- `datetime` values are integers (seconds); `timedelta(minutes=m)` is `60*m`.
- Python `int` is `Int`.
- The relational tables are lists of rows held in a `DB` record; SQLAlchemy
  `db.scalar(select(...).where(...))` / `.scalars().first()` is `List.find?`,
  and a committed insert appends to the list.  Fresh primary keys come from
  `next_*` counters in the record.
- The media filesystem is an association list from path strings to file
  contents; a write replaces any previous entry for the path.
- A service call returns the post-state together with `Except ApiError α`:
  an `HTTPException` raised after some commits leaves those commits in place,
  which the returned state reflects.
-/

namespace UIRS

/-- Row of the `employees` table (`src/models/employee.py`); only the columns
the claims touch are kept. -/
structure Employee where
  id : Int
  name : String
  surname : String
  patronymic : String
deriving DecidableEq, Repr

/-- Row of the `events` table (`src/models/event.py`). -/
structure Event where
  id : Int
  name : String
  start_datetime : Int
  end_datetime : Int
  video : Option String
deriving DecidableEq, Repr

/-- Row of the `visitinterval` table (`src/models/event.py`). -/
structure VisitInterval where
  id : Int
  event_id : Int
  order : Int
  start_datetime : Int
  end_datetime : Int
  max_unregistered : Int
  max_unregistered_photo : Option String
deriving DecidableEq, Repr

/-- Row of the `interval_employee` table (`src/models/event.py`). -/
structure IntervalEmployee where
  id : Int
  interval_id : Int
  employee_id : Int
  photo : String
  first_spot_datetime : Int
deriving DecidableEq, Repr

/-- Row of the `planned_participants` table (`src/models/event.py`). -/
structure PlannedParticipant where
  id : Int
  event_id : Int
  employee_id : Int
deriving DecidableEq, Repr

/-- The relational state: one list per table, plus fresh-id counters standing
for the autoincrement primary keys. -/
structure DB where
  events : List Event
  employees : List Employee
  intervals : List VisitInterval
  interval_employees : List IntervalEmployee
  planned_participants : List PlannedParticipant
  next_event_id : Int
  next_interval_id : Int
  next_interval_employee_id : Int
  next_pp_id : Int
deriving DecidableEq, Repr

/-- An uploaded file: its client-supplied filename and its bytes (as a
string). -/
structure UploadFile where
  filename : String
  content : String
deriving DecidableEq, Repr

/-- Combined state: database plus the media filesystem (path ↦ contents). -/
structure SystemState where
  db : DB
  fs : List (String × String)
deriving DecidableEq, Repr

/-- Write a file: later writes shadow earlier ones at the same path. -/
def fsWrite (fs : List (String × String)) (path content : String) :
    List (String × String) :=
  (path, content) :: fs.filter (fun e => !(e.1 == path))

/-- Read a file's contents back. -/
def fsRead (fs : List (String × String)) (path : String) : Option String :=
  (fs.find? (fun e => e.1 == path)).map (fun e => e.2)

/-- `db.scalar(select(Event).where(Event.id == i))`. -/
def findEvent (db : DB) (i : Int) : Option Event :=
  db.events.find? (fun e => e.id == i)

/-- `db.scalar(select(Employee).where(Employee.id == i))`. -/
def findEmployee (db : DB) (i : Int) : Option Employee :=
  db.employees.find? (fun e => e.id == i)

/-- `db.scalar(select(VisitInterval).where(event_id == e, order == o))`. -/
def findInterval (db : DB) (event_id ord : Int) : Option VisitInterval :=
  db.intervals.find? (fun it => it.event_id == event_id && it.order == ord)

/-- `db.scalar(select(IntervalEmployee).where(interval_id == i, employee_id == e))`. -/
def findIntervalEmployee (db : DB) (interval_id employee_id : Int) :
    Option IntervalEmployee :=
  db.interval_employees.find?
    (fun ie => ie.interval_id == interval_id && ie.employee_id == employee_id)

/-- `timedelta(minutes=m)` in seconds. -/
def minutes (m : Int) : Int := 60 * m

/-- Index of the last `'.'` in a character list, if any. -/
def lastDotIndex (cs : List Char) : Option Nat :=
  ((List.range cs.length).filter (fun i => cs.getD i ' ' == '.')).getLast?

/-- The characters after the last `'/'` — `os.path.basename` /
`pathlib` final component of the filename. -/
def lastComponent (cs : List Char) : List Char :=
  cs.foldl (fun acc c => if c == '/' then [] else acc ++ [c]) []

/-- Python `str.lower()`, character by character. -/
def lowerStr (s : String) : String :=
  String.mk (s.data.map Char.toLower)

/-- The extension (with leading dot) as `os.path.splitext(filename)[1]`
computes it: the part of the final path component from its last dot on,
empty when there is no dot or only leading dots precede it. -/
def splitextExt (filename : String) : String :=
  let cs := lastComponent filename.data
  match lastDotIndex cs with
  | none => ""
  | some p =>
    if (List.range p).all (fun j => cs.getD j ' ' == '.') then ""
    else String.mk (cs.drop p)

/-- The extension as `pathlib.Path(filename).suffix` computes it: the final
component's tail from its last dot, provided that dot is neither the first
nor the last character. -/
def pathSuffix (filename : String) : String :=
  let cs := lastComponent filename.data
  match lastDotIndex cs with
  | none => ""
  | some p =>
    if 0 < p && p + 1 < cs.length then String.mk (cs.drop p) else ""

/-- `str(Path("media/intervals") / f"{event_id}_{order}" / "photo/employee" / f"{employee_id}{extension}")`. -/
def employeePhotoPath (event_id ord employee_id : Int) (ext : String) : String :=
  "media/intervals/" ++ toString event_id ++ "_" ++ toString ord ++
    "/photo/employee/" ++ toString employee_id ++ ext

/-- `str(Path("media/intervals") / f"{event_id}_{order}" / "photo/unregistered" / f"unregistered_{max_unregistered}{extension}")`. -/
def unregisteredPhotoPath (event_id ord maxu : Int) (ext : String) : String :=
  "media/intervals/" ++ toString event_id ++ "_" ++ toString ord ++
    "/photo/unregistered/unregistered_" ++ toString maxu ++ ext

/-- Message constant imported by the ML module.  The snapshot's
`src/core/constant.py` stops before the ML-related constants, so the literal
text is not in `src/`; only its identity matters to the claims. -/
def FAIL_VALIDATION_MATCHED_EVENT : String := "FAIL_VALIDATION_MATCHED_EVENT"

/-- Message constant imported by the ML module (see
`FAIL_VALIDATION_MATCHED_EVENT` about the missing literal text). -/
def FAIL_VALIDATION_MATCHED_EMPLOYEE : String := "FAIL_VALIDATION_MATCHED_EMPLOYEE"

/-- Message constant imported by the ML module (see
`FAIL_VALIDATION_MATCHED_EVENT` about the missing literal text). -/
def FAIL_FORBIDDEN : String := "FAIL_FORBIDDEN"

/-- Success message returned by both ingestion endpoints (see
`FAIL_VALIDATION_MATCHED_EVENT` about the missing literal text). -/
def SUCCESS_RESPONSE_ML : String := "SUCCESS_RESPONSE_ML"

/-- Errors surfaced to the HTTP layer: `HTTPException`s with a status code,
plus `internalError` for an unhandled Python exception (e.g. adding a
`timedelta` to the `None` returned by a scalar select on a missing event). -/
inductive ApiError where
  | notFound (detail : String)
  | forbidden (detail : String)
  | badRequest (detail : String)
  | internalError
deriving DecidableEq, Repr

/-- `schemas/ml.py` `Employee_visit` (the `visit_time : timedelta` is in
seconds). -/
structure Employee_visit where
  event_id : Int
  order : Int
  sending_time : Int
  employee_id : Int
  visit_time : Int
deriving DecidableEq, Repr

/-- `schemas/ml.py` `Unregistered_visit`. -/
structure Unregistered_visit where
  event_id : Int
  order : Int
  sending_time : Int
  unregistered_max : Int
deriving DecidableEq, Repr

/-- `services/ml.py::create_interval_and_add_employee`, step for step:
employee lookup (404 when absent); photo path from `os.path.splitext` of the
upload's filename; event `start_datetime` scalar select (`None` + timedelta
crashes when the event is absent); interval bounds from
`start + 5*order` minutes; find-or-create of the `VisitInterval`; the photo
file written to disk; find of the `(interval, employee)` row and insert only
when absent. -/
def create_interval_and_add_employee (v : Employee_visit)
    (photo_file : UploadFile) (st : SystemState) :
    SystemState × Except ApiError VisitInterval :=
  match findEmployee st.db v.employee_id with
  | none => (st, .error (.notFound FAIL_VALIDATION_MATCHED_EMPLOYEE))
  | some _ =>
    let extension := splitextExt photo_file.filename
    let photo_path := employeePhotoPath v.event_id v.order v.employee_id extension
    match findEvent st.db v.event_id with
    | none => (st, .error .internalError)
    | some ev =>
      let interval_start := ev.start_datetime + minutes (5 * v.order)
      let interval_end := interval_start + minutes 5
      let visit_time := interval_start + v.visit_time
      let found := findInterval st.db v.event_id v.order
      let stepOne : SystemState × VisitInterval :=
        match found with
        | some itv => (st, itv)
        | none =>
          let itv : VisitInterval :=
            { id := st.db.next_interval_id
              event_id := v.event_id
              order := v.order
              start_datetime := interval_start
              end_datetime := interval_end
              max_unregistered := 0
              max_unregistered_photo := none }
          ({ st with db := { st.db with
                intervals := st.db.intervals ++ [itv]
                next_interval_id := st.db.next_interval_id + 1 } }, itv)
      let st1 := stepOne.1
      let interval := stepOne.2
      let st2 := { st1 with fs := fsWrite st1.fs photo_path photo_file.content }
      match findIntervalEmployee st2.db interval.id v.employee_id with
      | some _ => (st2, .ok interval)
      | none =>
        let ie : IntervalEmployee :=
          { id := st2.db.next_interval_employee_id
            interval_id := interval.id
            employee_id := v.employee_id
            photo := photo_path
            first_spot_datetime := visit_time }
        ({ st2 with db := { st2.db with
              interval_employees := st2.db.interval_employees ++ [ie]
              next_interval_employee_id := st2.db.next_interval_employee_id + 1 } },
         .ok interval)

/-- `services/ml.py::add_unregistered_visit`, step for step: event
`start_datetime` scalar select (crash on a missing event); interval bounds
from `start + 5*(order-1)` minutes; interval lookup; photo path from
`Path(...).suffix.lower()` and the unconditional file write; interval creation
when absent (already carrying the submitted count and photo); then the
unconditional overwrite of `max_unregistered` / `max_unregistered_photo` on
the resolved row. -/
def add_unregistered_visit (v : Unregistered_visit) (file : UploadFile)
    (st : SystemState) : SystemState × Except ApiError Unit :=
  match findEvent st.db v.event_id with
  | none => (st, .error .internalError)
  | some ev =>
    let interval_start := ev.start_datetime + minutes (5 * (v.order - 1))
    let interval_end := interval_start + minutes 5
    let found := findInterval st.db v.event_id v.order
    let extension := lowerStr (pathSuffix file.filename)
    let photo_path := unregisteredPhotoPath v.event_id v.order v.unregistered_max extension
    let st1 := { st with fs := fsWrite st.fs photo_path file.content }
    let stepTwo : SystemState × Int :=
      match found with
      | some itv => (st1, itv.id)
      | none =>
        let itv : VisitInterval :=
          { id := st1.db.next_interval_id
            event_id := v.event_id
            order := v.order
            start_datetime := interval_start
            end_datetime := interval_end
            max_unregistered := v.unregistered_max
            max_unregistered_photo := some photo_path }
        ({ st1 with db := { st1.db with
              intervals := st1.db.intervals ++ [itv]
              next_interval_id := st1.db.next_interval_id + 1 } }, itv.id)
    let st2 := stepTwo.1
    let interval_id := stepTwo.2
    ({ st2 with db := { st2.db with
          intervals := st2.db.intervals.map (fun it =>
            if it.id == interval_id then
              { it with
                  max_unregistered := v.unregistered_max
                  max_unregistered_photo := some photo_path }
            else it) } }, .ok ())

/-- `api/dependencies/ml.py::only_ml_access`: any authenticated caller whose
user id differs from the reserved ML id `-1` is rejected with 403.  In the
source this dependency is declared but attached to no route. -/
def only_ml_access (current_user_id : Int) : Except ApiError Unit :=
  if current_user_id != -1 then .error (.forbidden FAIL_FORBIDDEN)
  else .ok ()

/-- `api/dependencies/ml.py::validate_employee_visit`: only the event's
existence is checked (the employee check is commented out in the source). -/
def validate_employee_visit (event_id : Int) (db : DB) : Except ApiError Unit :=
  match findEvent db event_id with
  | none => .error (.notFound FAIL_VALIDATION_MATCHED_EVENT)
  | some _ => .ok ()

/-- `api/v1/ml.py::employee_visit` (POST /ml/employee_visit): build the
`Employee_visit` from the form fields (`visit_time` seconds), run
`validate_employee_visit`, then `create_interval_and_add_employee`, and
answer with the success message. -/
def employee_visit (event_id ord sending_time employee_id visit_time_seconds : Int)
    (file : UploadFile) (st : SystemState) :
    SystemState × Except ApiError String :=
  match validate_employee_visit event_id st.db with
  | .error e => (st, .error e)
  | .ok _ =>
    let visit_info : Employee_visit :=
      { event_id := event_id
        order := ord
        sending_time := sending_time
        employee_id := employee_id
        visit_time := visit_time_seconds }
    match create_interval_and_add_employee visit_info file st with
    | (st', .ok _) => (st', .ok SUCCESS_RESPONSE_ML)
    | (st', .error e) => (st', .error e)

/-- `api/v1/ml.py::unregistered_visit` (POST /ml/unregistered_visit). -/
def unregistered_visit (event_id ord sending_time max_unregistered : Int)
    (file : UploadFile) (st : SystemState) :
    SystemState × Except ApiError String :=
  match validate_employee_visit event_id st.db with
  | .error e => (st, .error e)
  | .ok _ =>
    let visit_info : Unregistered_visit :=
      { event_id := event_id
        order := ord
        sending_time := sending_time
        unregistered_max := max_unregistered }
    match add_unregistered_visit visit_info file st with
    | (st', .ok _) => (st', .ok SUCCESS_RESPONSE_ML)
    | (st', .error e) => (st', .error e)

/-- The POST /ml/employee_visit pipeline as the source wires it, seen from a
caller with a given user id: the route handler's dependencies are only the
form fields, the file and the database session — `only_ml_access` (and
`get_current_user`) is not among them, so the caller's identity never enters
the computation. -/
def employee_visit_route (caller_user_id : Int)
    (event_id ord sending_time employee_id visit_time_seconds : Int)
    (file : UploadFile) (st : SystemState) :
    SystemState × Except ApiError String :=
  employee_visit event_id ord sending_time employee_id visit_time_seconds file st

/-- `schemas/employee.py::EmployeeInfoPhoto`, restricted to the identity
columns; the department / position / photo enrichments are dropped, as no
claim mentions them. -/
structure EmployeeInfoPhoto where
  id : Int
  name : String
  surname : String
  patronymic : String
deriving DecidableEq, Repr

/-- `schemas/report.py::IntervalFullInfo` (the source stringifies
`first_spot_datetime` with `strftime`; the integer timestamp is kept). -/
structure IntervalFullInfo where
  interval_id : Int
  start_datetime : Int
  end_datetime : Int
  photo : String
  first_spot_datetime : Int
  employee_info : EmployeeInfoPhoto
deriving DecidableEq, Repr

/-- `schemas/report.py::EmployeeVisit`: one employee with their interval
timeline. -/
structure EmployeeVisit where
  id : Int
  name : String
  surname : String
  patronymic : String
  intervals : List IntervalFullInfo
deriving DecidableEq, Repr

/-- `schemas/report.py::IntervalUnregisteredInfo`. -/
structure IntervalUnregisteredInfo where
  interval_id : Int
  start_datetime : Int
  end_datetime : Int
  max_unregistered : Int
  max_unregistered_photo : Option String
deriving DecidableEq, Repr

/-- `schemas/event.py::EventInfo`. -/
structure EventInfo where
  id : Int
  name : String
  start_datetime : Int
  end_datetime : Int
  video : Option String
  participants_count : Nat
deriving DecidableEq, Repr

/-- `schemas/report.py::ReportResponse`. -/
structure ReportResponse where
  event_info : EventInfo
  participants : List EmployeeInfoPhoto
  visits : List EmployeeVisit
  unregistered : List IntervalUnregisteredInfo
deriving DecidableEq, Repr

/-- The report's participants query: `select(Employee).join(PlannedParticipant,
PlannedParticipant.employee_id == Employee.id).where(PlannedParticipant.event_id
== event_id)` with `.unique()` — the employees having at least one planned
participation in the event, each once, in table order. -/
def plannedEmployees (db : DB) (event_id : Int) : List Employee :=
  db.employees.filter (fun e =>
    db.planned_participants.any (fun pp =>
      pp.event_id == event_id && pp.employee_id == e.id))

/-- Projection of an `Employee` row to the report's participant entry. -/
def toEmployeeInfo (e : Employee) : EmployeeInfoPhoto :=
  { id := e.id, name := e.name, surname := e.surname, patronymic := e.patronymic }

/-- `VisitInterval.employees` relationship: the interval's rows in table
order. -/
def intervalEmployeesOf (db : DB) (interval_id : Int) : List IntervalEmployee :=
  db.interval_employees.filter (fun ie => ie.interval_id == interval_id)

/-- The `(employee, IntervalFullInfo)` pairs the report's grouping loop walks,
in loop order: per interval of the event, per `IntervalEmployee` row of the
interval.  A row whose `employee_id` matches no employee would crash the
source with an `AttributeError`; the embedding drops it (no claim exercises
that path). -/
def reportSightings (db : DB) (intervals : List VisitInterval) :
    List (Employee × IntervalFullInfo) :=
  intervals.flatMap (fun itv =>
    (intervalEmployeesOf db itv.id).filterMap (fun ie =>
      (findEmployee db ie.employee_id).map (fun emp =>
        (emp, { interval_id := itv.id
                start_datetime := itv.start_datetime
                end_datetime := itv.end_datetime
                photo := ie.photo
                first_spot_datetime := ie.first_spot_datetime
                employee_info := toEmployeeInfo emp }))))

/-- One step of the `employee_dict` grouping: a Python dict keyed by employee
id preserves first-insertion order and appends to the existing bucket. -/
def addSighting (acc : List (Employee × List IntervalFullInfo))
    (s : Employee × IntervalFullInfo) : List (Employee × List IntervalFullInfo) :=
  if acc.any (fun g => g.1.id == s.1.id) then
    acc.map (fun g => if g.1.id == s.1.id then (g.1, g.2 ++ [s.2]) else g)
  else acc ++ [(s.1, [s.2])]

/-- The whole `employee_dict` grouping loop. -/
def groupByEmployee (l : List (Employee × IntervalFullInfo)) :
    List (Employee × List IntervalFullInfo) :=
  l.foldl addSighting []

/-- `services/report.py::fetch_event_statistics`: load the event (`ValueError`
"Мероприятие не найдено" when absent), build the participant list and
`event_info`, load the event's intervals, group the interval-employee rows by
employee into `visits`, and list one unregistered entry per interval. -/
def fetch_event_statistics (event_id : Int) (db : DB) :
    Except String ReportResponse :=
  match findEvent db event_id with
  | none => .error "Мероприятие не найдено"
  | some event =>
    let participants := plannedEmployees db event_id
    let participants_info := participants.map toEmployeeInfo
    let event_info : EventInfo :=
      { id := event.id
        name := event.name
        start_datetime := event.start_datetime
        end_datetime := event.end_datetime
        video := event.video
        participants_count := participants.length }
    let intervals := db.intervals.filter (fun it => it.event_id == event_id)
    let visits := (groupByEmployee (reportSightings db intervals)).map (fun g =>
      { id := g.1.id
        name := g.1.name
        surname := g.1.surname
        patronymic := g.1.patronymic
        intervals := g.2 })
    let unregistered := intervals.map (fun itv =>
      { interval_id := itv.id
        start_datetime := itv.start_datetime
        end_datetime := itv.end_datetime
        max_unregistered := itv.max_unregistered
        max_unregistered_photo := itv.max_unregistered_photo : IntervalUnregisteredInfo })
    .ok { event_info := event_info
          participants := participants_info
          visits := visits
          unregistered := unregistered }

/-- `api/v1/report.py::get_event_report` (GET /report/event/{event_id}): the
service's `ValueError` becomes an HTTP 404 whose detail is the error's
message. -/
def get_event_report (event_id : Int) (db : DB) : Except ApiError ReportResponse :=
  match fetch_event_statistics event_id db with
  | .ok r => .ok r
  | .error msg => .error (.notFound msg)

/-- `schemas/event.py::EventCreate`: name, time window, and the planned
participant employee ids. -/
structure EventCreate where
  name : String
  start_datetime : Int
  end_datetime : Int
  participants : List Int
deriving DecidableEq, Repr

/-- `schemas/event.py::EventFullInfo`. -/
structure EventFullInfo where
  id : Int
  name : String
  video : Option String
  start_datetime : Int
  end_datetime : Int
  participants : List EmployeeInfoPhoto
deriving DecidableEq, Repr

/-- The `participants_to_add` comprehension of `create_event_in_db`: one
`PlannedParticipant` row per submitted id, in order, with fresh primary
keys. -/
def addParticipants (next_id event_id : Int) :
    List Int → List PlannedParticipant × Int
  | [] => ([], next_id)
  | pid :: rest =>
    let tail := addParticipants (next_id + 1) event_id rest
    ({ id := next_id, event_id := event_id, employee_id := pid } :: tail.1, tail.2)

/-- The participant projection of `get_event_by_id`: each
`PlannedParticipant` row joined to its employee.  A row whose employee is
missing makes `participant.employee` `None` in the source, and the attribute
accesses crash — modelled as `none`. -/
def participantsInfo (db : DB) :
    List PlannedParticipant → Option (List EmployeeInfoPhoto)
  | [] => some []
  | pp :: rest =>
    match findEmployee db pp.employee_id with
    | none => none
    | some emp => (participantsInfo db rest).map (fun l => toEmployeeInfo emp :: l)

/-- `Event.participants` relationship: the event's rows in table order. -/
def plannedParticipantsOf (db : DB) (event_id : Int) : List PlannedParticipant :=
  db.planned_participants.filter (fun pp => pp.event_id == event_id)

/-- `services/event.py::get_event_by_id`: load the event with its
participants (404 "Событие не найдено" when absent) and project each
participant's employee; a dangling participant row crashes the source
(`internalError`). -/
def get_event_by_id (event_id : Int) (db : DB) : Except ApiError EventFullInfo :=
  match findEvent db event_id with
  | none => .error (.notFound "Событие не найдено")
  | some e =>
    match participantsInfo db (plannedParticipantsOf db event_id) with
    | none => .error .internalError
    | some parts =>
      .ok { id := e.id
            name := e.name
            video := e.video
            start_datetime := e.start_datetime
            end_datetime := e.end_datetime
            participants := parts }

/-- Extension used by `save_video_file`: `video.filename.split(".")[-1]`. -/
def lastDotPart (s : String) : String :=
  (s.splitOn ".").getLastD s

/-- `services/event.py::save_video_file`: write the upload under
`media/events/video/{event_id}.{extension}` and answer the path. -/
def save_video_file (video : UploadFile) (event_id : Int)
    (fs : List (String × String)) : List (String × String) × String :=
  let video_path := "media/events/video/" ++ toString event_id ++ "." ++
    lastDotPart video.filename
  (fsWrite fs video_path video.content, video_path)

/-- `services/event.py::create_event_in_db`: insert and commit the event;
insert the planned-participant rows (an id violating the employee foreign key
raises `IntegrityError`, rolling the participant insert back — the committed
event stays — and surfacing HTTP 400); store the video when one was sent; and
answer via `get_event_by_id`. -/
def create_event_in_db (ev : EventCreate) (video : Option UploadFile)
    (st : SystemState) : SystemState × Except ApiError EventFullInfo :=
  let new_event : Event :=
    { id := st.db.next_event_id
      name := ev.name
      start_datetime := ev.start_datetime
      end_datetime := ev.end_datetime
      video := none }
  let db1 := { st.db with
    events := st.db.events ++ [new_event]
    next_event_id := st.db.next_event_id + 1 }
  if ev.participants.all (fun pid => (findEmployee db1 pid).isSome) then
    let added := addParticipants db1.next_pp_id new_event.id ev.participants
    let db2 := { db1 with
      planned_participants := db1.planned_participants ++ added.1
      next_pp_id := added.2 }
    match video with
    | none =>
      let st2 := { st with db := db2 }
      (st2, get_event_by_id new_event.id st2.db)
    | some vf =>
      let saved := save_video_file vf new_event.id st.fs
      let db3 := { db2 with
        events := db2.events.map (fun e =>
          if e.id == new_event.id then { e with video := some saved.2 } else e) }
      let st2 : SystemState := { db := db3, fs := saved.1 }
      (st2, get_event_by_id new_event.id st2.db)
  else
    ({ st with db := db1 },
     .error (.badRequest "Ошибка при добавлении мероприятия в базу данных"))

/-- Concrete employee used by the witnesses. -/
def demoEmployee : Employee :=
  { id := 7, name := "Ivan", surname := "Petrov", patronymic := "S" }

/-- Concrete event used by the witnesses; `start_datetime = 36000` stands for
2025-01-01T10:00 (seconds since that day's midnight). -/
def demoEvent : Event :=
  { id := 1, name := "Demo", start_datetime := 36000, end_datetime := 72000,
    video := none }

/-- Concrete database holding just `demoEvent` and `demoEmployee`. -/
def demoDB : DB :=
  { events := [demoEvent]
    employees := [demoEmployee]
    intervals := []
    interval_employees := []
    planned_participants := []
    next_event_id := 2
    next_interval_id := 1
    next_interval_employee_id := 1
    next_pp_id := 1 }

/-- Concrete initial state used by the witnesses. -/
def demoState : SystemState := { db := demoDB, fs := [] }

/-- Concrete photo upload. -/
def demoPhoto : UploadFile := { filename := "img.JPG", content := "bytes1" }

/-- A second photo upload with different contents. -/
def demoPhoto2 : UploadFile := { filename := "img.JPG", content := "bytes2" }

/-- The claim scenario's employee visit: order 2, `visit_time` 90 s. -/
def demoVisit : Employee_visit :=
  { event_id := 1, order := 2, sending_time := 0, employee_id := 7,
    visit_time := 90 }

/-- An unregistered-visit submission with the given count, for `(1, 2)`. -/
def demoUnregistered (m : Int) : Unregistered_visit :=
  { event_id := 1, order := 2, sending_time := 0, unregistered_max := m }

/-- State after one unregistered-visit submission with count 3. -/
def demoAfterUnreg3 : SystemState :=
  (add_unregistered_visit (demoUnregistered 3) demoPhoto demoState).1

/-- State after one employee-visit submission (`demoVisit`, `demoPhoto`). -/
def demoAfterFirstVisit : SystemState :=
  (create_interval_and_add_employee demoVisit demoPhoto demoState).1

/-- The interval row that first submission creates. -/
def demoInterval : VisitInterval :=
  { id := 1, event_id := 1, order := 2, start_datetime := 36600,
    end_datetime := 36900, max_unregistered := 0,
    max_unregistered_photo := none }

/-- The interval-employee row that first submission creates
(`first_spot_datetime = 36690`, i.e. 10:11:30). -/
def demoIntervalEmployee : IntervalEmployee :=
  { id := 1, interval_id := 1, employee_id := 7,
    photo := "media/intervals/1_2/photo/employee/7.JPG",
    first_spot_datetime := 36690 }

/-- Shorthand for the employee-photo path a submission writes. -/
def visitPhotoPath (v : Employee_visit) (f : UploadFile) : String :=
  employeePhotoPath v.event_id v.order v.employee_id (splitextExt f.filename)

/-- The `VisitInterval` row `create_interval_and_add_employee` inserts when
none exists for `(event_id, order)`. -/
def freshInterval (st : SystemState) (v : Employee_visit) (ev : Event) :
    VisitInterval :=
  { id := st.db.next_interval_id
    event_id := v.event_id
    order := v.order
    start_datetime := ev.start_datetime + minutes (5 * v.order)
    end_datetime := ev.start_datetime + minutes (5 * v.order) + minutes 5
    max_unregistered := 0
    max_unregistered_photo := none }

/-- The `IntervalEmployee` row the employee-visit path inserts (for interval
id `iid`) when the employee has no row there yet. -/
def freshIntervalEmployee (st : SystemState) (v : Employee_visit)
    (ev : Event) (f : UploadFile) (iid : Int) : IntervalEmployee :=
  { id := st.db.next_interval_employee_id
    interval_id := iid
    employee_id := v.employee_id
    photo := visitPhotoPath v f
    first_spot_datetime := ev.start_datetime + minutes (5 * v.order) + v.visit_time }

/-- `demoDB` with employee 7 planned as participant of event 1 (no visit
intervals). -/
def demoReportDB : DB :=
  { demoDB with
      planned_participants := [{ id := 1, event_id := 1, employee_id := 7 }] }

/-- A second employee for the round-trip witness. -/
def demoEmployee2 : Employee :=
  { id := 8, name := "Anna", surname := "B", patronymic := "C" }

/-- Starting state for the event-creation round trip: two employees, no
events to collide with. -/
def demoCreateState : SystemState :=
  { db := { demoDB with employees := [demoEmployee, demoEmployee2] }, fs := [] }

/-- Event-creation request with two participants, ids 8 and 7. -/
def demoEventCreate : EventCreate :=
  { name := "E2", start_datetime := 0, end_datetime := 10,
    participants := [8, 7] }

/-! Helper lemmas shared by the claim theorems. -/

/-- Reading a path back right after writing it yields the written contents. -/
theorem fsRead_fsWrite_self (fs : List (String × String)) (p c : String) :
    fsRead (fsWrite fs p c) p = some c := by
  simp [fsRead, fsWrite, List.find?_cons]

/-- A search that fails on the first list continues on the second. -/
theorem find?_append_of_none {α : Type} {p : α → Bool} {l₁ : List α}
    (h : l₁.find? p = none) (l₂ : List α) :
    (l₁ ++ l₂).find? p = l₂.find? p := by
  rw [List.find?_append, h, Option.none_or]

/-- The `max_unregistered` overwrite touches neither `event_id` nor `order`,
so searching the updated table by `(event_id, order)` finds the updated image
of what the search found before. -/
theorem findInterval_map_overwrite (l : List VisitInterval) (e o iid m : Int)
    (pp : Option String) :
    (l.map (fun it =>
        if it.id == iid then
          { it with max_unregistered := m, max_unregistered_photo := pp }
        else it)).find? (fun it => it.event_id == e && it.order == o) =
      (l.find? (fun it => it.event_id == e && it.order == o)).map (fun it =>
        if it.id == iid then
          { it with max_unregistered := m, max_unregistered_photo := pp }
        else it) := by
  rw [List.find?_map]
  have hcomp : ((fun it : VisitInterval => it.event_id == e && it.order == o) ∘
      (fun it => if it.id == iid then
        { it with max_unregistered := m, max_unregistered_photo := pp }
      else it)) = (fun it : VisitInterval => it.event_id == e && it.order == o) := by
    funext it
    by_cases h : (it.id == iid) = true <;> simp [Function.comp, h]
  rw [hcomp]

/-- Claim C1: for every sequence of unregistered-visit submissions for the
same `(event_id, order)`, each submission leaves the interval's
`max_unregistered` and `max_unregistered_photo` at exactly the values of that
(most recent) call — last-write-wins, not a running maximum. -/
theorem C1_unregistered_last_write_wins (st : SystemState)
    (v : Unregistered_visit) (file : UploadFile) (ev : Event)
    (hev : findEvent st.db v.event_id = some ev) :
    ∃ itv : VisitInterval,
      findInterval ((add_unregistered_visit v file st).1).db v.event_id v.order
          = some itv ∧
      itv.max_unregistered = v.unregistered_max ∧
      itv.max_unregistered_photo = some (unregisteredPhotoPath v.event_id
        v.order v.unregistered_max (lowerStr (pathSuffix file.filename))) ∧
      (add_unregistered_visit v file st).2 = Except.ok () := by
  cases hfi : findInterval st.db v.event_id v.order with
  | some itv0 =>
      have hres : add_unregistered_visit v file st =
          ({ db := { st.db with intervals := st.db.intervals.map (fun it : VisitInterval =>
                if it.id == itv0.id then
                  { it with
                      max_unregistered := v.unregistered_max
                      max_unregistered_photo := some (unregisteredPhotoPath
                        v.event_id v.order v.unregistered_max
                        (lowerStr (pathSuffix file.filename))) }
                else it) }
             fs := fsWrite st.fs (unregisteredPhotoPath v.event_id v.order
               v.unregistered_max (lowerStr (pathSuffix file.filename)))
               file.content }, Except.ok ()) := by
        unfold add_unregistered_visit
        rw [hev, hfi]
        try rfl
      unfold findInterval at hfi
      refine ⟨{ itv0 with
          max_unregistered := v.unregistered_max
          max_unregistered_photo := some (unregisteredPhotoPath v.event_id
            v.order v.unregistered_max (lowerStr (pathSuffix file.filename))) },
        ?_, rfl, rfl, ?_⟩
      · rw [hres]
        unfold findInterval
        dsimp only
        rw [findInterval_map_overwrite, hfi, Option.map_some']
        simp
      · rw [hres]
  | none =>
      have hres : add_unregistered_visit v file st =
          ({ db := { st.db with
              intervals := (st.db.intervals ++
                [({ id := st.db.next_interval_id
                    event_id := v.event_id
                    order := v.order
                    start_datetime := ev.start_datetime + minutes (5 * (v.order - 1))
                    end_datetime := ev.start_datetime + minutes (5 * (v.order - 1))
                      + minutes 5
                    max_unregistered := v.unregistered_max
                    max_unregistered_photo := some (unregisteredPhotoPath
                      v.event_id v.order v.unregistered_max
                      (lowerStr (pathSuffix file.filename))) } : VisitInterval)]).map (fun it : VisitInterval =>
                if it.id == st.db.next_interval_id then
                  { it with
                      max_unregistered := v.unregistered_max
                      max_unregistered_photo := some (unregisteredPhotoPath
                        v.event_id v.order v.unregistered_max
                        (lowerStr (pathSuffix file.filename))) }
                else it)
              next_interval_id := st.db.next_interval_id + 1 }
             fs := fsWrite st.fs (unregisteredPhotoPath v.event_id v.order
               v.unregistered_max (lowerStr (pathSuffix file.filename)))
               file.content }, Except.ok ()) := by
        unfold add_unregistered_visit
        rw [hev, hfi]
        try rfl
      unfold findInterval at hfi
      refine ⟨{ id := st.db.next_interval_id
                event_id := v.event_id
                order := v.order
                start_datetime := ev.start_datetime + minutes (5 * (v.order - 1))
                end_datetime := ev.start_datetime + minutes (5 * (v.order - 1))
                  + minutes 5
                max_unregistered := v.unregistered_max
                max_unregistered_photo := some (unregisteredPhotoPath v.event_id
                  v.order v.unregistered_max
                  (lowerStr (pathSuffix file.filename))) },
        ?_, rfl, rfl, ?_⟩
      · rw [hres]
        unfold findInterval
        dsimp only
        rw [findInterval_map_overwrite, find?_append_of_none hfi,
          List.find?_cons]
        simp
      · rw [hres]

/-- Witness for C1, at the claim's scenario: after submitting
`max_unregistered = 3` and then `max_unregistered = 5` for `(1, 2)`, the
interval holds 5 (the 3 is overwritten). -/
theorem C1_unregistered_last_write_wins_witness :
    (∃ itv : VisitInterval,
      findInterval ((add_unregistered_visit (demoUnregistered 5) demoPhoto
          demoAfterUnreg3).1).db 1 2 = some itv ∧
      itv.max_unregistered = 5 ∧
      itv.max_unregistered_photo = some (unregisteredPhotoPath 1 2 5
        (lowerStr (pathSuffix demoPhoto.filename))) ∧
      (add_unregistered_visit (demoUnregistered 5) demoPhoto
          demoAfterUnreg3).2 = Except.ok ()) ∧
    (findInterval demoAfterUnreg3.db 1 2).map VisitInterval.max_unregistered
      = some 3 := by
  constructor
  · exact C1_unregistered_last_write_wins demoAfterUnreg3 (demoUnregistered 5)
      demoPhoto demoEvent (by decide)
  · decide

/-- Branch equation for `create_interval_and_add_employee`: interval found,
employee row already present — only the photo file changes. -/
theorem create_visit_existing_row (st : SystemState) (v : Employee_visit)
    (f : UploadFile) (emp : Employee) (ev : Event) (itv : VisitInterval)
    (r : IntervalEmployee)
    (hemp : findEmployee st.db v.employee_id = some emp)
    (hev : findEvent st.db v.event_id = some ev)
    (hitv : findInterval st.db v.event_id v.order = some itv)
    (hr : findIntervalEmployee st.db itv.id v.employee_id = some r) :
    create_interval_and_add_employee v f st =
      ({ st with fs := fsWrite st.fs (visitPhotoPath v f) f.content },
       Except.ok itv) := by
  unfold create_interval_and_add_employee
  rw [hemp, hev, hitv]
  dsimp only
  rw [hr]
  rfl

/-- Branch equation for `create_interval_and_add_employee`: interval found,
no row for the employee yet — the row is inserted. -/
theorem create_visit_new_row (st : SystemState) (v : Employee_visit)
    (f : UploadFile) (emp : Employee) (ev : Event) (itv : VisitInterval)
    (hemp : findEmployee st.db v.employee_id = some emp)
    (hev : findEvent st.db v.event_id = some ev)
    (hitv : findInterval st.db v.event_id v.order = some itv)
    (hno : findIntervalEmployee st.db itv.id v.employee_id = none) :
    create_interval_and_add_employee v f st =
      ({ db := { st.db with
            interval_employees := st.db.interval_employees ++
              [freshIntervalEmployee st v ev f itv.id]
            next_interval_employee_id := st.db.next_interval_employee_id + 1 }
         fs := fsWrite st.fs (visitPhotoPath v f) f.content },
       Except.ok itv) := by
  unfold create_interval_and_add_employee
  rw [hemp, hev, hitv]
  dsimp only
  rw [hno]
  rfl

/-- Branch equation for `create_interval_and_add_employee`: no interval yet,
employee row (for the fresh interval id) already present — the interval is
inserted, the employee row is not. -/
theorem create_visit_new_interval_existing_row (st : SystemState)
    (v : Employee_visit) (f : UploadFile) (emp : Employee) (ev : Event)
    (r : IntervalEmployee)
    (hemp : findEmployee st.db v.employee_id = some emp)
    (hev : findEvent st.db v.event_id = some ev)
    (hitv : findInterval st.db v.event_id v.order = none)
    (hr : findIntervalEmployee st.db st.db.next_interval_id v.employee_id = some r) :
    create_interval_and_add_employee v f st =
      ({ db := { st.db with
            intervals := st.db.intervals ++ [freshInterval st v ev]
            next_interval_id := st.db.next_interval_id + 1 }
         fs := fsWrite st.fs (visitPhotoPath v f) f.content },
       Except.ok (freshInterval st v ev)) := by
  unfold create_interval_and_add_employee
  rw [hemp, hev, hitv]
  unfold findIntervalEmployee at hr ⊢
  dsimp only
  rw [hr]
  rfl

/-- Branch equation for `create_interval_and_add_employee`: no interval and
no employee row yet — both are inserted. -/
theorem create_visit_new_interval_new_row (st : SystemState)
    (v : Employee_visit) (f : UploadFile) (emp : Employee) (ev : Event)
    (hemp : findEmployee st.db v.employee_id = some emp)
    (hev : findEvent st.db v.event_id = some ev)
    (hitv : findInterval st.db v.event_id v.order = none)
    (hno : findIntervalEmployee st.db st.db.next_interval_id v.employee_id = none) :
    create_interval_and_add_employee v f st =
      ({ db := { st.db with
            intervals := st.db.intervals ++ [freshInterval st v ev]
            next_interval_id := st.db.next_interval_id + 1
            interval_employees := st.db.interval_employees ++
              [freshIntervalEmployee st v ev f st.db.next_interval_id]
            next_interval_employee_id := st.db.next_interval_employee_id + 1 }
         fs := fsWrite st.fs (visitPhotoPath v f) f.content },
       Except.ok (freshInterval st v ev)) := by
  unfold create_interval_and_add_employee
  rw [hemp, hev, hitv]
  unfold findIntervalEmployee at hno ⊢
  dsimp only
  rw [hno]
  rfl

/-- Claim C3: an employee-visit submission for an `(event_id, order,
employee_id)` whose interval already holds a row for that employee leaves the
`interval_employee` table — in particular that row's photo path and
`first_spot_datetime` — exactly as the first submission stored it, and still
reports success. -/
theorem C3_repeat_employee_visit_noop (st : SystemState) (v : Employee_visit)
    (f : UploadFile) (emp : Employee) (ev : Event) (itv : VisitInterval)
    (r : IntervalEmployee)
    (hemp : findEmployee st.db v.employee_id = some emp)
    (hev : findEvent st.db v.event_id = some ev)
    (hitv : findInterval st.db v.event_id v.order = some itv)
    (hr : findIntervalEmployee st.db itv.id v.employee_id = some r) :
    ((create_interval_and_add_employee v f st).1).db.interval_employees
        = st.db.interval_employees ∧
    findIntervalEmployee ((create_interval_and_add_employee v f st).1).db
        itv.id v.employee_id = some r ∧
    (create_interval_and_add_employee v f st).2 = Except.ok itv := by
  rw [create_visit_existing_row st v f emp ev itv r hemp hev hitv hr]
  exact ⟨rfl, hr, rfl⟩

/-- Witness for C3: after `demoVisit` was ingested once, submitting it again
with a different photo leaves the interval-employee table (photo
`.../7.JPG`, `first_spot_datetime` 36690) unchanged. -/
theorem C3_repeat_employee_visit_noop_witness :
    ((create_interval_and_add_employee demoVisit demoPhoto2
        demoAfterFirstVisit).1).db.interval_employees
      = demoAfterFirstVisit.db.interval_employees ∧
    findIntervalEmployee ((create_interval_and_add_employee demoVisit
        demoPhoto2 demoAfterFirstVisit).1).db 1 7 = some demoIntervalEmployee ∧
    (create_interval_and_add_employee demoVisit demoPhoto2
        demoAfterFirstVisit).2 = Except.ok demoInterval :=
  C3_repeat_employee_visit_noop demoAfterFirstVisit demoVisit demoPhoto2
    demoEmployee demoEvent demoInterval demoIntervalEmployee
    (by decide) (by decide) (by decide) (by decide)

/-- Claim C10: the photo file of an employee-visit submission is written to
`media/intervals/{event_id}_{order}/photo/employee/{employee_id}{ext}`
unconditionally — so when the employee already has a row in the interval, the
on-disk contents become the new upload even though the database row is left
untouched. -/
theorem C10_photo_overwritten_despite_db_noop (st : SystemState)
    (v : Employee_visit) (f : UploadFile) (emp : Employee) (ev : Event)
    (itv : VisitInterval) (r : IntervalEmployee)
    (hemp : findEmployee st.db v.employee_id = some emp)
    (hev : findEvent st.db v.event_id = some ev)
    (hitv : findInterval st.db v.event_id v.order = some itv)
    (hr : findIntervalEmployee st.db itv.id v.employee_id = some r) :
    fsRead ((create_interval_and_add_employee v f st).1).fs
        (employeePhotoPath v.event_id v.order v.employee_id
          (splitextExt f.filename)) = some f.content ∧
    ((create_interval_and_add_employee v f st).1).db.interval_employees
      = st.db.interval_employees := by
  rw [create_visit_existing_row st v f emp ev itv r hemp hev hitv hr]
  exact ⟨fsRead_fsWrite_self st.fs (visitPhotoPath v f) f.content, rfl⟩

/-- Witness for C10: re-submitting `demoVisit` with contents "bytes2"
overwrites `media/intervals/1_2/photo/employee/7.JPG` on disk while the
database row keeps the first submission's values. -/
theorem C10_photo_overwritten_despite_db_noop_witness :
    (fsRead ((create_interval_and_add_employee demoVisit demoPhoto2
          demoAfterFirstVisit).1).fs
        (employeePhotoPath 1 2 7 (splitextExt demoPhoto2.filename))
        = some "bytes2" ∧
      ((create_interval_and_add_employee demoVisit demoPhoto2
          demoAfterFirstVisit).1).db.interval_employees
        = demoAfterFirstVisit.db.interval_employees) ∧
    employeePhotoPath 1 2 7 (splitextExt demoPhoto2.filename)
      = "media/intervals/1_2/photo/employee/7.JPG" ∧
    demoAfterFirstVisit.db.interval_employees = [demoIntervalEmployee] := by
  refine ⟨?_, by decide, by decide⟩
  exact C10_photo_overwritten_despite_db_noop demoAfterFirstVisit demoVisit
    demoPhoto2 demoEmployee demoEvent demoInterval demoIntervalEmployee
    (by decide) (by decide) (by decide) (by decide)

/-- Branch equation for `add_unregistered_visit` when no interval exists for
`(event_id, order)` yet: the photo is written, the interval is inserted with
the `order - 1` offset, and the count/photo overwrite then hits the fresh
row. -/
theorem add_unreg_overwrite_fresh (st : SystemState) (v : Unregistered_visit)
    (file : UploadFile) (ev : Event)
    (hev : findEvent st.db v.event_id = some ev)
    (hfi : findInterval st.db v.event_id v.order = none) :
    add_unregistered_visit v file st =
      ({ db := { st.db with
          intervals := (st.db.intervals ++
            [({ id := st.db.next_interval_id
                event_id := v.event_id
                order := v.order
                start_datetime := ev.start_datetime + minutes (5 * (v.order - 1))
                end_datetime := ev.start_datetime + minutes (5 * (v.order - 1))
                  + minutes 5
                max_unregistered := v.unregistered_max
                max_unregistered_photo := some (unregisteredPhotoPath
                  v.event_id v.order v.unregistered_max
                  (lowerStr (pathSuffix file.filename))) } : VisitInterval)]).map
            (fun it : VisitInterval =>
              if it.id == st.db.next_interval_id then
                { it with
                    max_unregistered := v.unregistered_max
                    max_unregistered_photo := some (unregisteredPhotoPath
                      v.event_id v.order v.unregistered_max
                      (lowerStr (pathSuffix file.filename))) }
              else it)
          next_interval_id := st.db.next_interval_id + 1 }
         fs := fsWrite st.fs (unregisteredPhotoPath v.event_id v.order
           v.unregistered_max (lowerStr (pathSuffix file.filename)))
           file.content }, Except.ok ()) := by
  unfold add_unregistered_visit
  rw [hev, hfi]
  try rfl

/-- Claim C2: on a state with no interval for `(event_id, order)`, the
unregistered-visit path creates the interval with
`start = event.start + (order-1)*5min`, while the employee-visit path creates
it with `start = event.start + order*5min`; both give it a 5-minute span. -/
theorem C2_interval_offset_mismatch (st : SystemState)
    (eid ord stime maxu emp_id vtime : Int) (f g : UploadFile)
    (ev : Event) (emp : Employee)
    (hev : findEvent st.db eid = some ev)
    (hemp : findEmployee st.db emp_id = some emp)
    (hno : findInterval st.db eid ord = none) :
    (∃ itvU : VisitInterval,
      findInterval ((add_unregistered_visit
          { event_id := eid, order := ord, sending_time := stime,
            unregistered_max := maxu } f st).1).db eid ord = some itvU ∧
      itvU.start_datetime = ev.start_datetime + minutes (5 * (ord - 1)) ∧
      itvU.end_datetime = itvU.start_datetime + minutes 5) ∧
    (∃ itvE : VisitInterval,
      findInterval ((create_interval_and_add_employee
          { event_id := eid, order := ord, sending_time := stime,
            employee_id := emp_id, visit_time := vtime } g st).1).db eid ord
        = some itvE ∧
      itvE.start_datetime = ev.start_datetime + minutes (5 * ord) ∧
      itvE.end_datetime = itvE.start_datetime + minutes 5) := by
  constructor
  · rw [add_unreg_overwrite_fresh st
      { event_id := eid, order := ord, sending_time := stime,
        unregistered_max := maxu } f ev hev hno]
    unfold findInterval at hno ⊢
    dsimp only
    refine ⟨{ id := st.db.next_interval_id
              event_id := eid
              order := ord
              start_datetime := ev.start_datetime + minutes (5 * (ord - 1))
              end_datetime := ev.start_datetime + minutes (5 * (ord - 1))
                + minutes 5
              max_unregistered := maxu
              max_unregistered_photo := some (unregisteredPhotoPath eid ord
                maxu (lowerStr (pathSuffix f.filename))) }, ?_, rfl, rfl⟩
    rw [findInterval_map_overwrite, find?_append_of_none hno, List.find?_cons]
    simp
  · cases hie : findIntervalEmployee st.db st.db.next_interval_id emp_id with
    | some r =>
        rw [create_visit_new_interval_existing_row st
          { event_id := eid, order := ord, sending_time := stime,
            employee_id := emp_id, visit_time := vtime } g emp ev r
          hemp hev hno hie]
        unfold findInterval at hno ⊢
        dsimp only
        refine ⟨freshInterval st
          { event_id := eid, order := ord, sending_time := stime,
            employee_id := emp_id, visit_time := vtime } ev, ?_, rfl, rfl⟩
        rw [find?_append_of_none hno, List.find?_cons]
        simp [freshInterval]
    | none =>
        rw [create_visit_new_interval_new_row st
          { event_id := eid, order := ord, sending_time := stime,
            employee_id := emp_id, visit_time := vtime } g emp ev
          hemp hev hno hie]
        unfold findInterval at hno ⊢
        dsimp only
        refine ⟨freshInterval st
          { event_id := eid, order := ord, sending_time := stime,
            employee_id := emp_id, visit_time := vtime } ev, ?_, rfl, rfl⟩
        rw [find?_append_of_none hno, List.find?_cons]
        simp [freshInterval]

/-- Witness for C2 at `demoState`: the unregistered path creates the `(1, 2)`
interval starting at 36300 (10:05), the employee path at 36600 (10:10). -/
theorem C2_interval_offset_mismatch_witness :
    (∃ itvU : VisitInterval,
      findInterval ((add_unregistered_visit
          { event_id := 1, order := 2, sending_time := 0,
            unregistered_max := 4 } demoPhoto demoState).1).db 1 2
        = some itvU ∧
      itvU.start_datetime = 36000 + minutes (5 * (2 - 1)) ∧
      itvU.end_datetime = itvU.start_datetime + minutes 5) ∧
    (∃ itvE : VisitInterval,
      findInterval ((create_interval_and_add_employee
          { event_id := 1, order := 2, sending_time := 0,
            employee_id := 7, visit_time := 90 } demoPhoto demoState).1).db 1 2
        = some itvE ∧
      itvE.start_datetime = 36000 + minutes (5 * 2) ∧
      itvE.end_datetime = itvE.start_datetime + minutes 5) :=
  C2_interval_offset_mismatch demoState 1 2 0 4 7 90 demoPhoto demoPhoto
    demoEvent demoEmployee (by decide) (by decide) (by decide)

/-- Composite helper: a successful employee-visit submission resolves to an
interval that a subsequent `findInterval` for the same `(event_id, order)`
returns, and it touches neither the employee nor the event table. -/
theorem create_visit_resolves (st : SystemState) (v : Employee_visit)
    (f : UploadFile) (emp : Employee) (ev : Event)
    (hemp : findEmployee st.db v.employee_id = some emp)
    (hev : findEvent st.db v.event_id = some ev) :
    ∃ itv, (create_interval_and_add_employee v f st).2 = Except.ok itv ∧
      findInterval ((create_interval_and_add_employee v f st).1).db
        v.event_id v.order = some itv ∧
      findEmployee ((create_interval_and_add_employee v f st).1).db
        v.employee_id = some emp ∧
      findEvent ((create_interval_and_add_employee v f st).1).db
        v.event_id = some ev := by
  cases hfi : findInterval st.db v.event_id v.order with
  | some itv0 =>
    cases hie : findIntervalEmployee st.db itv0.id v.employee_id with
    | some r =>
        rw [create_visit_existing_row st v f emp ev itv0 r hemp hev hfi hie]
        exact ⟨itv0, rfl, hfi, hemp, hev⟩
    | none =>
        rw [create_visit_new_row st v f emp ev itv0 hemp hev hfi hie]
        exact ⟨itv0, rfl, hfi, hemp, hev⟩
  | none =>
    have key : ∀ db' : DB,
        db'.intervals = st.db.intervals ++ [freshInterval st v ev] →
        findInterval db' v.event_id v.order = some (freshInterval st v ev) := by
      intro db' h
      unfold findInterval at hfi ⊢
      rw [h, find?_append_of_none hfi, List.find?_cons]
      simp [freshInterval]
    cases hie : findIntervalEmployee st.db st.db.next_interval_id v.employee_id with
    | some r =>
        rw [create_visit_new_interval_existing_row st v f emp ev r hemp hev hfi hie]
        exact ⟨freshInterval st v ev, rfl, key _ rfl, hemp, hev⟩
    | none =>
        rw [create_visit_new_interval_new_row st v f emp ev hemp hev hfi hie]
        exact ⟨freshInterval st v ev, rfl, key _ rfl, hemp, hev⟩

/-- Composite helper: when the interval for `(event_id, order)` already
exists, an employee-visit submission returns it and adds no interval row. -/
theorem create_visit_found_keeps (st : SystemState) (v : Employee_visit)
    (f : UploadFile) (emp : Employee) (ev : Event) (itv : VisitInterval)
    (hemp : findEmployee st.db v.employee_id = some emp)
    (hev : findEvent st.db v.event_id = some ev)
    (hitv : findInterval st.db v.event_id v.order = some itv) :
    (create_interval_and_add_employee v f st).2 = Except.ok itv ∧
    ((create_interval_and_add_employee v f st).1).db.intervals
      = st.db.intervals := by
  cases hie : findIntervalEmployee st.db itv.id v.employee_id with
  | some r =>
      rw [create_visit_existing_row st v f emp ev itv r hemp hev hitv hie]
      exact ⟨rfl, rfl⟩
  | none =>
      rw [create_visit_new_row st v f emp ev itv hemp hev hitv hie]
      exact ⟨rfl, rfl⟩

/-- Claim C4: running the employee-visit find-or-create twice sequentially
for the same `(event_id, order)` resolves to the same `VisitInterval` row
both times — the second run finds the first run's row and inserts no second
interval row. -/
theorem C4_find_or_create_idempotent (st : SystemState) (v : Employee_visit)
    (f1 f2 : UploadFile) (emp : Employee) (ev : Event)
    (hemp : findEmployee st.db v.employee_id = some emp)
    (hev : findEvent st.db v.event_id = some ev) :
    ∃ itv, (create_interval_and_add_employee v f1 st).2 = Except.ok itv ∧
      findInterval ((create_interval_and_add_employee v f1 st).1).db
        v.event_id v.order = some itv ∧
      (create_interval_and_add_employee v f2
        ((create_interval_and_add_employee v f1 st).1)).2 = Except.ok itv ∧
      ((create_interval_and_add_employee v f2
          ((create_interval_and_add_employee v f1 st).1)).1).db.intervals
        = ((create_interval_and_add_employee v f1 st).1).db.intervals := by
  obtain ⟨itv, hok, hfind, hemp1, hev1⟩ :=
    create_visit_resolves st v f1 emp ev hemp hev
  obtain ⟨hok2, hkeep⟩ := create_visit_found_keeps
    ((create_interval_and_add_employee v f1 st).1) v f2 emp ev itv hemp1 hev1 hfind
  exact ⟨itv, hok, hfind, hok2, hkeep⟩

/-- Witness for C4 at `demoState`: both submissions resolve to the interval
row with id 1 and the second one adds no interval. -/
theorem C4_find_or_create_idempotent_witness :
    ∃ itv, (create_interval_and_add_employee demoVisit demoPhoto demoState).2
        = Except.ok itv ∧
      findInterval ((create_interval_and_add_employee demoVisit demoPhoto
          demoState).1).db 1 2 = some itv ∧
      (create_interval_and_add_employee demoVisit demoPhoto2
        ((create_interval_and_add_employee demoVisit demoPhoto demoState).1)).2
        = Except.ok itv ∧
      ((create_interval_and_add_employee demoVisit demoPhoto2
          ((create_interval_and_add_employee demoVisit demoPhoto
            demoState).1)).1).db.intervals
        = ((create_interval_and_add_employee demoVisit demoPhoto
            demoState).1).db.intervals :=
  C4_find_or_create_idempotent demoState demoVisit demoPhoto demoPhoto2
    demoEmployee demoEvent (by decide) (by decide)

/-- Claim C5: every `IntervalEmployee` row an employee-visit submission
creates carries `first_spot_datetime = event.start_datetime + order*5min +
visit_time`. -/
theorem C5_first_spot_datetime (st : SystemState) (v : Employee_visit)
    (f : UploadFile) (emp : Employee) (ev : Event)
    (hemp : findEmployee st.db v.employee_id = some emp)
    (hev : findEvent st.db v.event_id = some ev) :
    ∀ ie ∈ ((create_interval_and_add_employee v f st).1).db.interval_employees,
      ie ∉ st.db.interval_employees →
      ie.first_spot_datetime
        = ev.start_datetime + minutes (5 * v.order) + v.visit_time := by
  cases hfi : findInterval st.db v.event_id v.order with
  | some itv0 =>
    cases hie : findIntervalEmployee st.db itv0.id v.employee_id with
    | some r =>
        rw [create_visit_existing_row st v f emp ev itv0 r hemp hev hfi hie]
        intro ie hmem hnot
        exact absurd hmem hnot
    | none =>
        rw [create_visit_new_row st v f emp ev itv0 hemp hev hfi hie]
        intro ie hmem hnot
        rcases List.mem_append.mp hmem with h | h
        · exact absurd h hnot
        · rw [List.mem_singleton] at h
          subst h
          rfl
  | none =>
    cases hie : findIntervalEmployee st.db st.db.next_interval_id v.employee_id with
    | some r =>
        rw [create_visit_new_interval_existing_row st v f emp ev r hemp hev hfi hie]
        intro ie hmem hnot
        exact absurd hmem hnot
    | none =>
        rw [create_visit_new_interval_new_row st v f emp ev hemp hev hfi hie]
        intro ie hmem hnot
        rcases List.mem_append.mp hmem with h | h
        · exact absurd h hnot
        · rw [List.mem_singleton] at h
          subst h
          rfl

/-- Witness for C5, the claim's scenario: event start 36000 (10:00),
order 2, `visit_time` 90 s — the created row's `first_spot_datetime` is
36000 + 600 + 90 = 36690, i.e. 10:11:30. -/
theorem C5_first_spot_datetime_witness :
    (∀ ie ∈ ((create_interval_and_add_employee demoVisit demoPhoto
        demoState).1).db.interval_employees,
      ie ∉ demoState.db.interval_employees →
      ie.first_spot_datetime = 36000 + minutes (5 * 2) + 90) ∧
    ((create_interval_and_add_employee demoVisit demoPhoto
        demoState).1).db.interval_employees = [demoIntervalEmployee] ∧
    demoIntervalEmployee.first_spot_datetime = 36690 := by
  refine ⟨?_, by decide, by decide⟩
  exact C5_first_spot_datetime demoState demoVisit demoPhoto demoEmployee
    demoEvent (by decide) (by decide)

/-- Claim C6: an employee-visit submission whose event id matches no event,
or whose employee id matches no employee, fails with the corresponding
"not found" error and leaves the whole state — database and filesystem —
untouched (no `VisitInterval`, no `IntervalEmployee` row). -/
theorem C6_missing_refs_rejected (st : SystemState)
    (eid ord stime emp_id vtime : Int) (f : UploadFile) :
    (findEvent st.db eid = none →
      employee_visit eid ord stime emp_id vtime f st
        = (st, Except.error (ApiError.notFound FAIL_VALIDATION_MATCHED_EVENT))) ∧
    ((∃ ev, findEvent st.db eid = some ev) → findEmployee st.db emp_id = none →
      employee_visit eid ord stime emp_id vtime f st
        = (st, Except.error (ApiError.notFound FAIL_VALIDATION_MATCHED_EMPLOYEE))) := by
  constructor
  · intro h
    unfold employee_visit validate_employee_visit
    rw [h]
  · rintro ⟨ev, hev⟩ hmiss
    unfold employee_visit validate_employee_visit create_interval_and_add_employee
    rw [hev]
    dsimp only
    rw [hmiss]

/-- Witness for C6 on `demoState`: event id 99 does not exist (event
"not found"), and employee id 9 does not exist (employee "not found");
both rejections leave the state exactly as it was. -/
theorem C6_missing_refs_rejected_witness :
    employee_visit 99 2 0 7 90 demoPhoto demoState
      = (demoState, Except.error (ApiError.notFound FAIL_VALIDATION_MATCHED_EVENT)) ∧
    employee_visit 1 2 0 9 90 demoPhoto demoState
      = (demoState, Except.error (ApiError.notFound FAIL_VALIDATION_MATCHED_EMPLOYEE)) :=
  ⟨(C6_missing_refs_rejected demoState 99 2 0 7 90 demoPhoto).1 (by decide),
   (C6_missing_refs_rejected demoState 1 2 0 9 90 demoPhoto).2
     ⟨demoEvent, by decide⟩ (by decide)⟩

/-- Claim C7 (code-bug evidence): the `only_ml_access` dependency would
reject a caller whose user id is 5 with 403 and accept the reserved id -1 —
but the POST /ml/employee_visit pipeline never invokes it, so the same
caller's request is ingested successfully, all the way to a persisted
interval-employee row. -/
theorem C7_ml_guard_not_wired :
    only_ml_access 5 = Except.error (ApiError.forbidden FAIL_FORBIDDEN) ∧
    only_ml_access (-1) = Except.ok () ∧
    (employee_visit_route 5 1 2 0 7 90 demoPhoto demoState).2
      = Except.ok SUCCESS_RESPONSE_ML ∧
    ((employee_visit_route 5 1 2 0 7 90 demoPhoto
        demoState).1).db.interval_employees = [demoIntervalEmployee] := by
  exact ⟨rfl, rfl, rfl, by decide⟩

/-- Claim C8: for an existing event with no visit intervals the statistics
report has empty `visits` and `unregistered` lists, and its participants are
exactly the event's planned participants (non-empty whenever any were
planned); for a non-existent event id the report endpoint signals
"not found". -/
theorem C8_report_zero_visits (db : DB) (eid : Int) (ev : Event)
    (hev : findEvent db eid = some ev)
    (hno : db.intervals.filter (fun it => it.event_id == eid) = [])
    (hri : ∀ pp ∈ db.planned_participants, pp.event_id = eid →
      ∃ emp ∈ db.employees, emp.id = pp.employee_id) :
    (∃ r, fetch_event_statistics eid db = Except.ok r ∧
      r.visits = [] ∧ r.unregistered = [] ∧
      (∀ i : Int, (∃ p ∈ r.participants, p.id = i) ↔
        ∃ pp ∈ db.planned_participants,
          pp.event_id = eid ∧ pp.employee_id = i) ∧
      ((∃ pp ∈ db.planned_participants, pp.event_id = eid) →
        r.participants ≠ [])) ∧
    (∀ eid2 : Int, findEvent db eid2 = none →
      get_event_report eid2 db
        = Except.error (ApiError.notFound "Мероприятие не найдено")) := by
  have hiff : ∀ i : Int,
      (∃ p ∈ (plannedEmployees db eid).map toEmployeeInfo, p.id = i) ↔
      ∃ pp ∈ db.planned_participants, pp.event_id = eid ∧ pp.employee_id = i := by
    intro i
    constructor
    · rintro ⟨p, hp, hpid⟩
      rcases List.mem_map.mp hp with ⟨e, he, rfl⟩
      unfold plannedEmployees at he
      rcases List.mem_filter.mp he with ⟨_, hany⟩
      rcases List.any_eq_true.mp hany with ⟨pp, hppmem, hcond⟩
      rcases (Bool.and_eq_true _ _).mp hcond with ⟨h1, h2⟩
      refine ⟨pp, hppmem, beq_iff_eq.mp h1, ?_⟩
      exact (beq_iff_eq.mp h2).trans hpid
    · rintro ⟨pp, hppmem, hpeid, hpempid⟩
      rcases hri pp hppmem hpeid with ⟨emp, hempmem, hempid⟩
      refine ⟨toEmployeeInfo emp, ?_, hempid.trans hpempid⟩
      apply List.mem_map_of_mem
      unfold plannedEmployees
      refine List.mem_filter.mpr ⟨hempmem, ?_⟩
      refine List.any_eq_true.mpr ⟨pp, hppmem, ?_⟩
      rw [Bool.and_eq_true]
      exact ⟨beq_iff_eq.mpr hpeid, beq_iff_eq.mpr hempid.symm⟩
  constructor
  · have hfetch : fetch_event_statistics eid db = Except.ok
        { event_info :=
            { id := ev.id
              name := ev.name
              start_datetime := ev.start_datetime
              end_datetime := ev.end_datetime
              video := ev.video
              participants_count := (plannedEmployees db eid).length }
          participants := (plannedEmployees db eid).map toEmployeeInfo
          visits := []
          unregistered := [] } := by
      unfold fetch_event_statistics
      rw [hev, hno]
      rfl
    refine ⟨_, hfetch, rfl, rfl, hiff, ?_⟩
    · rintro ⟨pp, hmem, heid⟩
      rcases (hiff pp.employee_id).mpr ⟨pp, hmem, heid, rfl⟩ with ⟨p, hp, _⟩
      exact List.ne_nil_of_mem hp
  · intro eid2 h2
    unfold get_event_report fetch_event_statistics
    rw [h2]
    try rfl

/-- Witness for C8: in `demoReportDB` event 1 exists, has a planned
participant (employee 7) and no intervals; event 99 does not exist. -/
theorem C8_report_zero_visits_witness :
    (∃ r, fetch_event_statistics 1 demoReportDB = Except.ok r ∧
      r.visits = [] ∧ r.unregistered = [] ∧
      (∀ i : Int, (∃ p ∈ r.participants, p.id = i) ↔
        ∃ pp ∈ demoReportDB.planned_participants,
          pp.event_id = 1 ∧ pp.employee_id = i) ∧
      ((∃ pp ∈ demoReportDB.planned_participants, pp.event_id = 1) →
        r.participants ≠ [])) ∧
    (∀ eid2 : Int, findEvent demoReportDB eid2 = none →
      get_event_report eid2 demoReportDB
        = Except.error (ApiError.notFound "Мероприятие не найдено")) :=
  C8_report_zero_visits demoReportDB 1 demoEvent (by decide) (by decide)
    (by decide)

/-- Every row `addParticipants` builds carries the given event id. -/
theorem addParticipants_event_ids (eid : Int) :
    ∀ (l : List Int) (n : Int), ∀ pp ∈ (addParticipants n eid l).1,
      pp.event_id = eid := by
  intro l
  induction l with
  | nil =>
      intro n pp h
      simp [addParticipants] at h
  | cons pid rest ih =>
      intro n pp h
      unfold addParticipants at h
      rcases List.mem_cons.mp h with h | h
      · rw [h]
      · exact ih (n + 1) pp h

/-- The employee ids of the rows `addParticipants` builds are the submitted
ids, in order. -/
theorem addParticipants_employee_ids (eid : Int) :
    ∀ (l : List Int) (n : Int),
      (addParticipants n eid l).1.map (fun pp => pp.employee_id) = l := by
  intro l
  induction l with
  | nil => intro n; rfl
  | cons pid rest ih =>
      intro n
      unfold addParticipants
      dsimp only
      rw [List.map_cons, ih (n + 1)]

/-- When every row's employee exists, the participant projection succeeds and
returns exactly the rows' employee ids, in order. -/
theorem participantsInfo_ids (db : DB) :
    ∀ l : List PlannedParticipant,
      (∀ pp ∈ l, ∃ emp ∈ db.employees, emp.id = pp.employee_id) →
      ∃ parts, participantsInfo db l = some parts ∧
        parts.map (fun p => p.id) = l.map (fun pp => pp.employee_id) := by
  intro l
  induction l with
  | nil => intro _; exact ⟨[], rfl, rfl⟩
  | cons pp rest ih =>
      intro h
      obtain ⟨emp0, hmem, hid⟩ := h pp (List.mem_cons_self pp rest)
      have hsome : (findEmployee db pp.employee_id).isSome := by
        unfold findEmployee
        rw [List.find?_isSome]
        exact ⟨emp0, hmem, beq_iff_eq.mpr hid⟩
      obtain ⟨emp, hemp⟩ := Option.isSome_iff_exists.mp hsome
      have hempid : emp.id = pp.employee_id := by
        have := List.find?_some (p := fun e : Employee => e.id == pp.employee_id)
          (by exact hemp)
        exact beq_iff_eq.mp this
      obtain ⟨parts, hp, hids⟩ := ih (fun q hq => h q (List.mem_cons_of_mem pp hq))
      refine ⟨toEmployeeInfo emp :: parts, ?_, ?_⟩
      · unfold participantsInfo
        rw [hemp, hp]
        rfl
      · rw [List.map_cons, List.map_cons, hids]
        unfold toEmployeeInfo
        rw [hempid]

/-- Core of the round trip: a database whose event row and planned rows for
`eid` are known yields an event detail whose participants are exactly the
rows' employee ids. -/
theorem get_round_trip (db2 : DB) (eid : Int) (eRow : Event)
    (added : List PlannedParticipant) (ids : List Int)
    (hev2 : findEvent db2 eid = some eRow)
    (hpps : plannedParticipantsOf db2 eid = added)
    (hids : added.map (fun pp => pp.employee_id) = ids)
    (hex : ∀ pp ∈ added, ∃ emp ∈ db2.employees, emp.id = pp.employee_id) :
    ∃ info, get_event_by_id eid db2 = Except.ok info ∧
      info.participants.map (fun p => p.id) = ids ∧
      info.participants.length = ids.length := by
  obtain ⟨parts, hinfo, hmap⟩ := participantsInfo_ids db2 added hex
  have hlen : parts.length = ids.length := by
    have h1 : parts.length = added.length := by
      rw [← List.length_map parts (fun p => p.id), hmap, List.length_map]
    have h2 : added.length = ids.length := by
      rw [← hids, List.length_map]
    exact h1.trans h2
  refine ⟨{ id := eRow.id
            name := eRow.name
            video := eRow.video
            start_datetime := eRow.start_datetime
            end_datetime := eRow.end_datetime
            participants := parts }, ?_, hmap.trans hids, hlen⟩
  unfold get_event_by_id
  rw [hev2]
  dsimp only
  rw [hpps, hinfo]

/-- Claim C9: creating an event with a list of participant employee ids and
then fetching the event detail returns exactly those participants, id for
id (and hence as many as were submitted). -/
theorem C9_participants_round_trip (st : SystemState) (ev : EventCreate)
    (hemp : ∀ pid ∈ ev.participants, ∃ emp ∈ st.db.employees, emp.id = pid)
    (hfe : ∀ e ∈ st.db.events, e.id ≠ st.db.next_event_id)
    (hfpp : ∀ pp ∈ st.db.planned_participants,
      pp.event_id ≠ st.db.next_event_id) :
    ∃ info, (create_event_in_db ev none st).2 = Except.ok info ∧
      get_event_by_id st.db.next_event_id
        ((create_event_in_db ev none st).1).db = Except.ok info ∧
      info.participants.map (fun p => p.id) = ev.participants ∧
      info.participants.length = ev.participants.length := by
  have hall : ev.participants.all (fun pid =>
      (findEmployee { st.db with
        events := st.db.events ++
          [{ id := st.db.next_event_id
             name := ev.name
             start_datetime := ev.start_datetime
             end_datetime := ev.end_datetime
             video := none }]
        next_event_id := st.db.next_event_id + 1 } pid).isSome) = true := by
    rw [List.all_eq_true]
    intro pid hpid
    obtain ⟨emp, hm, hid⟩ := hemp pid hpid
    show (findEmployee st.db pid).isSome = true
    unfold findEmployee
    rw [List.find?_isSome]
    exact ⟨emp, hm, beq_iff_eq.mpr hid⟩
  have hres : create_event_in_db ev none st =
      ({ st with db := { st.db with
          events := st.db.events ++
            [{ id := st.db.next_event_id
               name := ev.name
               start_datetime := ev.start_datetime
               end_datetime := ev.end_datetime
               video := none }]
          next_event_id := st.db.next_event_id + 1
          planned_participants := st.db.planned_participants ++
            (addParticipants st.db.next_pp_id st.db.next_event_id
              ev.participants).1
          next_pp_id := (addParticipants st.db.next_pp_id
            st.db.next_event_id ev.participants).2 } },
       get_event_by_id st.db.next_event_id { st.db with
          events := st.db.events ++
            [{ id := st.db.next_event_id
               name := ev.name
               start_datetime := ev.start_datetime
               end_datetime := ev.end_datetime
               video := none }]
          next_event_id := st.db.next_event_id + 1
          planned_participants := st.db.planned_participants ++
            (addParticipants st.db.next_pp_id st.db.next_event_id
              ev.participants).1
          next_pp_id := (addParticipants st.db.next_pp_id
            st.db.next_event_id ev.participants).2 }) := by
    unfold create_event_in_db
    dsimp only
    rw [hall]
    rfl
  have hnoneev : st.db.events.find?
      (fun e => e.id == st.db.next_event_id) = none := by
    refine List.find?_eq_none.mpr (fun e hel => ?_)
    simp only [beq_iff_eq]
    exact hfe e hel
  have hnonepp : st.db.planned_participants.filter
      (fun pp => pp.event_id == st.db.next_event_id) = [] := by
    rw [List.filter_eq_nil_iff]
    intro pp hppm
    simp only [beq_iff_eq]
    exact hfpp pp hppm
  obtain ⟨info, hget, hmap, hlen⟩ := get_round_trip
    { st.db with
      events := st.db.events ++
        [{ id := st.db.next_event_id
           name := ev.name
           start_datetime := ev.start_datetime
           end_datetime := ev.end_datetime
           video := none }]
      next_event_id := st.db.next_event_id + 1
      planned_participants := st.db.planned_participants ++
        (addParticipants st.db.next_pp_id st.db.next_event_id
          ev.participants).1
      next_pp_id := (addParticipants st.db.next_pp_id
        st.db.next_event_id ev.participants).2 }
    st.db.next_event_id
    { id := st.db.next_event_id
      name := ev.name
      start_datetime := ev.start_datetime
      end_datetime := ev.end_datetime
      video := none }
    (addParticipants st.db.next_pp_id st.db.next_event_id ev.participants).1
    ev.participants
    (by
      unfold findEvent
      dsimp only
      rw [find?_append_of_none hnoneev, List.find?_cons]
      simp)
    (by
      unfold plannedParticipantsOf
      dsimp only
      rw [List.filter_append, hnonepp, List.nil_append]
      refine List.filter_eq_self.mpr (fun pp hppm => ?_)
      have := addParticipants_event_ids st.db.next_event_id ev.participants
        st.db.next_pp_id pp hppm
      simp [this])
    (addParticipants_employee_ids st.db.next_event_id ev.participants
      st.db.next_pp_id)
    (by
      intro pp hppm
      have hin : pp.employee_id ∈ ev.participants := by
        rw [← addParticipants_employee_ids st.db.next_event_id ev.participants
          st.db.next_pp_id]
        exact List.mem_map_of_mem (fun q => q.employee_id) hppm
      obtain ⟨emp, hm, hid⟩ := hemp pp.employee_id hin
      exact ⟨emp, hm, hid⟩)
  refine ⟨info, ?_, ?_, hmap, hlen⟩
  · rw [hres]
    exact hget
  · rw [hres]
    exact hget

/-- Witness for C9: creating "E2" with participants `[8, 7]` in
`demoCreateState` and fetching it back yields exactly those two participant
ids, in order. -/
theorem C9_participants_round_trip_witness :
    ∃ info, (create_event_in_db demoEventCreate none demoCreateState).2
        = Except.ok info ∧
      get_event_by_id 2
        ((create_event_in_db demoEventCreate none demoCreateState).1).db
        = Except.ok info ∧
      info.participants.map (fun p => p.id) = [8, 7] ∧
      info.participants.length = 2 :=
  C9_participants_round_trip demoCreateState demoEventCreate
    (by decide) (by decide) (by decide)

end UIRS
